import Mathlib

/-!
Shallow embedding of the acquisition, triggering and buffering pipeline of
src/main/main.ino (ESP32 four-channel oscilloscope).  Machine integers are
modelled as Nat: on every guarded path the C++ quantities stay far below the
bounds of their declared types, as noted at each definition.  The float
arithmetic of the AC-coupling filter is modelled by exact rationals.  The
micros()-based auto-trigger timeout comparison of line 213 is passed to each
tick as a Boolean input, and the non-blocking pacing check of line 168 is
abstracted away: one call of loopIter models one pass of the task loop in
which the sampling interval has elapsed.
-/

namespace Scope

/-- Constant BUFFER_SIZE, main.ino line 54: ring-store capacity per channel. -/
def BUFFER_SIZE : Nat := 512

/-- Constant DISPLAY_SAMPLES, main.ino line 55: display-window length. -/
def DISPLAY_SAMPLES : Nat := 256

/-- Enum TriggerMode, main.ino lines 20-24. -/
inductive TriggerMode where
  | auto
  | normal
  | single
  deriving DecidableEq, Repr

/-- Enum TriggerSlope, main.ino lines 26-29. -/
inductive TriggerSlope where
  | rising
  | falling
  deriving DecidableEq, Repr

/-- Enum CouplingType, main.ino lines 31-34. -/
inductive CouplingType where
  | dc
  | ac
  deriving DecidableEq, Repr

/-- Struct OscilloscopeConfig, main.ino lines 37-51 (the fields the pipeline
reads; autosetRequested, autoTriggerTimeout and lastTriggerTime are absorbed
into the Boolean timeout input of a tick). -/
structure Config where
  channelEnabled : Fin 4 → Bool
  vScale : Fin 4 → Nat
  position : Fin 4 → ℚ
  coupling : Fin 4 → CouplingType
  hScale : ℚ
  triggerChannel : Nat
  triggerLevel : Nat
  triggerMode : TriggerMode
  triggerSlope : TriggerSlope
  running : Bool

/-- Default member initializers of OscilloscopeConfig, main.ino lines 38-47. -/
def defaultConfig : Config where
  channelEnabled := fun ch => ch = 0
  vScale := fun _ => 100
  position := fun _ => 0
  coupling := fun _ => CouplingType.dc
  hScale := 1 / 2
  triggerChannel := 1
  triggerLevel := 30
  triggerMode := TriggerMode.auto
  triggerSlope := TriggerSlope.rising
  running := true

/-- Mutable acquisition state: the globals of main.ino lines 56-65 together
with the waitingForTrigger local of acquisitionTask (line 155). -/
structure AcqState where
  sampleBuffer : Fin 4 → Nat → Nat
  displayBuffer : Fin 4 → Nat → Nat
  bufferIndex : Nat
  triggerIndex : Nat
  bufferReady : Bool
  triggered : Bool
  waitingForTrigger : Bool
  dcFilter : Fin 4 → ℚ

/-- Startup values of the globals (lines 56-65) and of waitingForTrigger
(line 155): zeroed buffers, cursor 0, all flags false, DC estimates 2048. -/
def initState : AcqState where
  sampleBuffer := fun _ _ => 0
  displayBuffer := fun _ _ => 0
  bufferIndex := 0
  triggerIndex := 0
  bufferReady := false
  triggered := false
  waitingForTrigger := false
  dcFilter := fun _ => 2048

/-- Arduino constrain(x, lo, hi) on rationals. -/
def clampQ (lo hi x : ℚ) : ℚ := max lo (min hi x)

/-- One application of the coupling filter of main.ino lines 175-180: with DC
coupling the raw sample and the DC estimate pass through unchanged; with AC
coupling the DC estimate is first updated by the low-pass recurrence of line
177 (filterAlpha = 0.001, line 66) and the corrected sample of line 179 is
constrained to 0..4095 and cast to uint16_t, i.e. truncated downward.
Returns (new DC estimate, stored sample). -/
def couplingStep (c : CouplingType) (est : ℚ) (raw : Nat) : ℚ × Nat :=
  match c with
  | CouplingType.dc => (est, raw)
  | CouplingType.ac =>
      let est1 := est * (1 - 1 / 1000) + (raw : ℚ) * (1 / 1000)
      (est1, (clampQ 0 4095 ((raw : ℚ) - est1 + 2048)).floor.toNat)

/-- Sample-write loop of main.ino lines 171-183: every channel gets one raw
reading, passes it through the coupling filter and stores the result in its
ring store at the shared cursor.  The loop iterations touch disjoint
channels, so the per-channel form below is equivalent to the sequential
loop. -/
def writePhase (cfg : Config) (raws : Fin 4 → Nat) (s : AcqState) : AcqState :=
  { s with
    dcFilter := fun ch => (couplingStep (cfg.coupling ch) (s.dcFilter ch) (raws ch)).1
    sampleBuffer := fun ch i =>
      if i = s.bufferIndex then (couplingStep (cfg.coupling ch) (s.dcFilter ch) (raws ch)).2
      else s.sampleBuffer ch i }

/-- Ring-store read at a Nat channel index.  The C++ source indexes the raw
array directly; every reachable triggerChannel lies in 1..4 so the index is
in bounds there, and the out-of-range case (undefined behaviour in C++) is
modelled as 0. -/
def readBuf (s : AcqState) (ch i : Nat) : Nat :=
  if h : ch < 4 then s.sampleBuffer ⟨ch, h⟩ i else 0

/-- Reading channelEnabled at a Nat index, same convention as readBuf. -/
def enabledAt (cfg : Config) (ch : Nat) : Bool :=
  if h : ch < 4 then cfg.channelEnabled ⟨ch, h⟩ else false

/-- Zero-based index of the trigger source channel,
config.triggerChannel - 1 (main.ino lines 189-191); Nat subtraction, and
every reachable triggerChannel is at least 1. -/
def trigIdxOf (cfg : Config) : Nat := cfg.triggerChannel - 1

/-- Re-arm guard of main.ino line 188:
triggerMode != TRIG_AUTO or not waitingForTrigger. -/
def armedGuard (cfg : Config) (s : AcqState) : Bool :=
  decide (cfg.triggerMode ≠ TriggerMode.auto) || !s.waitingForTrigger

/-- Detection guard of main.ino lines 188-189: armed, cursor beyond 2, and
the trigger source channel enabled. -/
def detectionGuard (cfg : Config) (s : AcqState) : Bool :=
  armedGuard cfg s && decide (2 < s.bufferIndex) && enabledAt cfg (trigIdxOf cfg)

/-- Trigger-level conversion of main.ino line 194:
(config.triggerLevel * 4095) / 3300 in integer arithmetic.  For every
reachable triggerLevel (at most 3300) the product 3300 * 4095 fits easily in
the int used by the C++ expression and the quotient fits in uint16_t. -/
def triggerADC (level : Nat) : Nat := level * 4095 / 3300

/-- Edge qualification of main.ino lines 196-200: RISING needs previous
sample below threshold and current sample at or above it, FALLING the mirror
image. -/
def edgeQualifies (slope : TriggerSlope) (prevSample curSample thr : Nat) : Bool :=
  match slope with
  | TriggerSlope.rising => decide (prevSample < thr) && decide (thr ≤ curSample)
  | TriggerSlope.falling => decide (thr < prevSample) && decide (curSample ≤ thr)

/-- Edge path of the trigger logic, main.ino lines 185-209, run on the state
produced by writePhase (so the sample at the cursor is the newly stored one,
exactly as the source rereads sampleBuffer at lines 190-191): under the
detection guard, a qualifying edge sets triggered, records the cursor as
trigger point and clears waitingForTrigger.  The autoTriggerStart reset of
line 206 lives inside the abstracted timeout input. -/
def edgePhase (cfg : Config) (s : AcqState) : AcqState :=
  if detectionGuard cfg s then
    if edgeQualifies cfg.triggerSlope
        (readBuf s (trigIdxOf cfg) (s.bufferIndex - 1))
        (readBuf s (trigIdxOf cfg) s.bufferIndex)
        (triggerADC cfg.triggerLevel) then
      { s with triggered := true, triggerIndex := s.bufferIndex, waitingForTrigger := false }
    else s
  else s

/-- Auto-timeout path of the trigger logic, main.ino lines 211-217: in AUTO
mode, if still untriggered and the timeout comparison of line 213 held
(Boolean input), a synthetic trigger is forced at the cursor.  The
autoTriggerStart reset of line 216 lives inside the abstracted timeout
input. -/
def autoPhase (cfg : Config) (timeoutExpired : Bool) (s : AcqState) : AcqState :=
  if decide (cfg.triggerMode = TriggerMode.auto) && !s.triggered && timeoutExpired then
    { s with triggered := true, triggerIndex := s.bufferIndex }
  else s

/-- Full trigger logic of main.ino lines 185-217: the edge path followed by
the auto-timeout path. -/
def triggerPhase (cfg : Config) (timeoutExpired : Bool) (s : AcqState) : AcqState :=
  autoPhase cfg timeoutExpired (edgePhase cfg s)

/-- Cursor advance of main.ino lines 219-222: increment, reset to 0 on
reaching BUFFER_SIZE. -/
def advancePhase (s : AcqState) : AcqState :=
  let b := s.bufferIndex + 1
  { s with bufferIndex := if BUFFER_SIZE ≤ b then 0 else b }

/-- Post-trigger sample count of main.ino lines 226-228 (uint16_t
arithmetic; both cursors are below BUFFER_SIZE in every reachable state so
no wraparound of the C++ subtraction occurs). -/
def postTriggerSamples (s : AcqState) : Nat :=
  if s.triggerIndex ≤ s.bufferIndex then s.bufferIndex - s.triggerIndex
  else BUFFER_SIZE - s.triggerIndex + s.bufferIndex

/-- Window start of main.ino lines 253-255: DISPLAY_SAMPLES / 4 before the
trigger point, borrowing BUFFER_SIZE when the trigger point is within a
quarter window of the ring start. -/
def startIndex (triggerIndex : Nat) : Nat :=
  if DISPLAY_SAMPLES / 4 ≤ triggerIndex then triggerIndex - DISPLAY_SAMPLES / 4
  else BUFFER_SIZE + triggerIndex - DISPLAY_SAMPLES / 4

/-- Function copyToDisplayBuffer, main.ino lines 251-263: for every channel,
DISPLAY_SAMPLES consecutive ring positions starting at startIndex, each
reduced modulo BUFFER_SIZE, are copied into the display buffer; entries past
the window keep their old value (the loop never touches them). -/
def copyToDisplayBuffer (sb old : Fin 4 → Nat → Nat) (triggerIndex : Nat) :
    Fin 4 → Nat → Nat :=
  fun ch i =>
    if i < DISPLAY_SAMPLES then sb ch ((startIndex triggerIndex + i) % BUFFER_SIZE)
    else old ch i

/-- Snapshot extraction of main.ino lines 224-242: when triggered and at
least DISPLAY_SAMPLES / 2 post-trigger samples have accumulated, copy the
display window, mark the buffer ready, drop running in SINGLE mode, clear
triggered and set waitingForTrigger.  Returns the (possibly) updated shared
config together with the new state, since line 236 mutates config.running. -/
def extractPhase (cfg : Config) (s : AcqState) : Config × AcqState :=
  if s.triggered then
    if DISPLAY_SAMPLES / 2 ≤ postTriggerSamples s then
      ({ cfg with running := if cfg.triggerMode = TriggerMode.single then false else cfg.running },
       { s with
          displayBuffer := copyToDisplayBuffer s.sampleBuffer s.displayBuffer s.triggerIndex
          bufferReady := true
          triggered := false
          waitingForTrigger := true })
    else (cfg, s)
  else (cfg, s)

/-- One acquisition tick, the body of the interval branch of
acquisitionTask (main.ino lines 168-245): write all channels, run the
trigger logic, advance the cursor, then try to extract a snapshot. -/
def tick (cfg : Config) (raws : Fin 4 → Nat) (timeoutExpired : Bool) (s : AcqState) :
    Config × AcqState :=
  extractPhase cfg (advancePhase (triggerPhase cfg timeoutExpired (writePhase cfg raws s)))

/-- Idle guard of main.ino line 158: the task loop skips the whole body when
not running, except in SINGLE trigger mode. -/
def taskIdles (cfg : Config) : Bool :=
  !cfg.running && !(decide (cfg.triggerMode = TriggerMode.single))

/-- One pass of the acquisitionTask loop in which the sampling interval has
elapsed: either the idle guard of line 158 skips everything, or a tick
runs. -/
def loopIter (cfg : Config) (raws : Fin 4 → Nat) (timeoutExpired : Bool) (s : AcqState) :
    Config × AcqState :=
  if taskIdles cfg then (cfg, s) else tick cfg raws timeoutExpired s

/-- The task loop iterated n times from startup, fed by a stream of raw
readings and a stream of timeout-comparison outcomes. -/
def runTicks (cfg : Config) (raws : Nat → Fin 4 → Nat) (te : Nat → Bool) : Nat → Config × AcqState
  | 0 => (cfg, initState)
  | n + 1 =>
      let p := runTicks cfg raws te n
      loopIter p.1 (raws n) (te n) p.2

/-! Helper lemmas about the phases. -/

lemma writePhase_bufferIndex (cfg : Config) (raws : Fin 4 → Nat) (s : AcqState) :
    (writePhase cfg raws s).bufferIndex = s.bufferIndex := rfl

lemma writePhase_triggered (cfg : Config) (raws : Fin 4 → Nat) (s : AcqState) :
    (writePhase cfg raws s).triggered = s.triggered := rfl

lemma readBuf_writePhase_of_ne (cfg : Config) (raws : Fin 4 → Nat) (s : AcqState)
    (ch i : Nat) (h : i ≠ s.bufferIndex) :
    readBuf (writePhase cfg raws s) ch i = readBuf s ch i := by
  unfold readBuf writePhase
  split <;> simp [h]

lemma edgePhase_cases (cfg : Config) (s : AcqState) :
    edgePhase cfg s = s ∨
    edgePhase cfg s =
      { s with triggered := true, triggerIndex := s.bufferIndex, waitingForTrigger := false } := by
  unfold edgePhase
  repeat' split
  all_goals simp

lemma autoPhase_cases (cfg : Config) (te : Bool) (s : AcqState) :
    autoPhase cfg te s = s ∨
    autoPhase cfg te s = { s with triggered := true, triggerIndex := s.bufferIndex } := by
  unfold autoPhase
  split
  all_goals simp

lemma autoPhase_of_false_timeout (cfg : Config) (s : AcqState) :
    autoPhase cfg false s = s := by
  unfold autoPhase
  simp

lemma autoPhase_of_triggered (cfg : Config) (te : Bool) (s : AcqState)
    (h : s.triggered = true) : autoPhase cfg te s = s := by
  unfold autoPhase
  simp [h]

lemma detectionGuard_cursor (cfg : Config) (s : AcqState)
    (h : detectionGuard cfg s = true) : 2 < s.bufferIndex := by
  unfold detectionGuard at h
  simp only [Bool.and_eq_true, decide_eq_true_eq] at h
  exact h.1.2

lemma detectionGuard_false_of_low (cfg : Config) (s : AcqState)
    (h : s.bufferIndex ≤ 2) : detectionGuard cfg s = false := by
  unfold detectionGuard
  rw [decide_eq_false (by omega)]
  simp

lemma edgePhase_of_low (cfg : Config) (s : AcqState) (h : s.bufferIndex ≤ 2) :
    edgePhase cfg s = s := by
  unfold edgePhase
  rw [detectionGuard_false_of_low cfg s h]
  simp

lemma advancePhase_bufferIndex (s : AcqState) :
    (advancePhase s).bufferIndex = if BUFFER_SIZE ≤ s.bufferIndex + 1 then 0 else s.bufferIndex + 1 :=
  rfl

lemma advancePhase_triggered (s : AcqState) : (advancePhase s).triggered = s.triggered := rfl

lemma advancePhase_triggerIndex (s : AcqState) : (advancePhase s).triggerIndex = s.triggerIndex := rfl

lemma extractPhase_of_not_triggered (cfg : Config) (s : AcqState)
    (htr : s.triggered = false) : extractPhase cfg s = (cfg, s) := by
  unfold extractPhase
  rw [htr]
  simp

lemma extractPhase_of_low (cfg : Config) (s : AcqState)
    (hlt : postTriggerSamples s < DISPLAY_SAMPLES / 2) : extractPhase cfg s = (cfg, s) := by
  unfold extractPhase
  have hn : ¬ DISPLAY_SAMPLES / 2 ≤ postTriggerSamples s := by omega
  simp [hn]

lemma extractPhase_of_fires (cfg : Config) (s : AcqState)
    (htr : s.triggered = true) (hge : DISPLAY_SAMPLES / 2 ≤ postTriggerSamples s) :
    extractPhase cfg s =
      ({ cfg with running := if cfg.triggerMode = TriggerMode.single then false else cfg.running },
       { s with
          displayBuffer := copyToDisplayBuffer s.sampleBuffer s.displayBuffer s.triggerIndex
          bufferReady := true
          triggered := false
          waitingForTrigger := true }) := by
  unfold extractPhase
  rw [htr]
  simp [hge]

lemma startIndex_mod (t : Nat) (ht : t < BUFFER_SIZE) (i : Nat) :
    (startIndex t + i) % BUFFER_SIZE = (t + 448 + i) % 512 := by
  unfold startIndex BUFFER_SIZE DISPLAY_SAMPLES at *
  split <;> omega

lemma window_quarter_mod (t : Nat) (ht : t < BUFFER_SIZE) : (t + 448 + 64) % 512 = t := by
  unfold BUFFER_SIZE at ht
  omega

lemma armedGuard_writePhase (cfg : Config) (raws : Fin 4 → Nat) (s : AcqState) :
    armedGuard cfg (writePhase cfg raws s) = armedGuard cfg s := rfl

lemma detectionGuard_writePhase (cfg : Config) (raws : Fin 4 → Nat) (s : AcqState) :
    detectionGuard cfg (writePhase cfg raws s) = detectionGuard cfg s := rfl

lemma detectionGuard_true (cfg : Config) (s : AcqState)
    (harm : armedGuard cfg s = true)
    (hen : enabledAt cfg (trigIdxOf cfg) = true)
    (hidx : 2 < s.bufferIndex) : detectionGuard cfg s = true := by
  unfold detectionGuard
  rw [harm, hen, decide_eq_true hidx]
  rfl

/-- When the trigger source is enabled, the detector is armed, the cursor is
past the startup window and the newly written sample together with the
preceding ring entry qualifies, the trigger logic fires: triggered is set,
the cursor is recorded as trigger point and waitingForTrigger is cleared. -/
lemma edge_fires (cfg : Config) (raws : Fin 4 → Nat) (te : Bool) (s : AcqState)
    (harm : armedGuard cfg s = true)
    (hen : enabledAt cfg (trigIdxOf cfg) = true)
    (hidx : 2 < s.bufferIndex)
    (hedge : edgeQualifies cfg.triggerSlope
        (readBuf s (trigIdxOf cfg) (s.bufferIndex - 1))
        (readBuf (writePhase cfg raws s) (trigIdxOf cfg) s.bufferIndex)
        (triggerADC cfg.triggerLevel) = true) :
    triggerPhase cfg te (writePhase cfg raws s) =
      { writePhase cfg raws s with
          triggered := true, triggerIndex := s.bufferIndex, waitingForTrigger := false } := by
  have hguard : detectionGuard cfg (writePhase cfg raws s) = true := by
    rw [detectionGuard_writePhase]
    exact detectionGuard_true cfg s harm hen hidx
  have hprev : readBuf (writePhase cfg raws s) (trigIdxOf cfg) (s.bufferIndex - 1)
      = readBuf s (trigIdxOf cfg) (s.bufferIndex - 1) :=
    readBuf_writePhase_of_ne cfg raws s _ _ (by omega)
  unfold triggerPhase edgePhase
  rw [if_pos hguard, writePhase_bufferIndex, hprev, if_pos hedge]
  exact autoPhase_of_triggered cfg te _ rfl

/-- Every reachable acquisition state keeps both cursors inside the ring. -/
def IndexInv (s : AcqState) : Prop :=
  s.bufferIndex < BUFFER_SIZE ∧ s.triggerIndex < BUFFER_SIZE

lemma indexInv_init : IndexInv initState := by
  constructor <;> norm_num [initState, BUFFER_SIZE]

lemma triggerPhase_indices (cfg : Config) (te : Bool) (s : AcqState) :
    (triggerPhase cfg te s).bufferIndex = s.bufferIndex
    ∧ ((triggerPhase cfg te s).triggerIndex = s.triggerIndex
        ∨ (triggerPhase cfg te s).triggerIndex = s.bufferIndex) := by
  unfold triggerPhase
  rcases edgePhase_cases cfg s with h | h <;> rw [h] <;>
    rcases autoPhase_cases cfg te _ with h2 | h2 <;> rw [h2] <;> simp

lemma indexInv_tick (cfg : Config) (raws : Fin 4 → Nat) (te : Bool) (s : AcqState)
    (h : IndexInv s) : IndexInv (tick cfg raws te s).2 := by
  obtain ⟨hb, ht⟩ := h
  obtain ⟨hTb, hTt⟩ := triggerPhase_indices cfg te (writePhase cfg raws s)
  rw [writePhase_bufferIndex] at hTb
  unfold tick
  set T := triggerPhase cfg te (writePhase cfg raws s) with hT
  have hAb : (advancePhase T).bufferIndex < BUFFER_SIZE := by
    rw [advancePhase_bufferIndex, hTb]
    unfold BUFFER_SIZE
    split <;> omega
  have hAt : (advancePhase T).triggerIndex < BUFFER_SIZE := by
    rw [advancePhase_triggerIndex]
    rcases hTt with h2 | h2 <;> rw [h2]
    · exact ht
    · rw [writePhase_bufferIndex] at *
      exact hb
  rcases Bool.eq_false_or_eq_true (advancePhase T).triggered with htr | htr
  · by_cases hge : DISPLAY_SAMPLES / 2 ≤ postTriggerSamples (advancePhase T)
    · rw [extractPhase_of_fires cfg _ htr hge]
      exact ⟨hAb, hAt⟩
    · rw [extractPhase_of_low cfg _ (by omega)]
      exact ⟨hAb, hAt⟩
  · rw [extractPhase_of_not_triggered cfg _ htr]
    exact ⟨hAb, hAt⟩

lemma indexInv_loopIter (cfg : Config) (raws : Fin 4 → Nat) (te : Bool) (s : AcqState)
    (h : IndexInv s) : IndexInv (loopIter cfg raws te s).2 := by
  unfold loopIter
  split
  · exact h
  · exact indexInv_tick cfg raws te s h

lemma indexInv_runTicks (cfg : Config) (raws : Nat → Fin 4 → Nat) (te : Nat → Bool) :
    ∀ n, IndexInv (runTicks cfg raws te n).2 := by
  intro n
  induction n with
  | zero => exact indexInv_init
  | succ n ih => exact indexInv_loopIter _ _ _ _ ih

/-! Claim theorems. -/

/-- C4: for every pair of samples on the trigger-source channel and every
configured trigger level L in 0..3300 mV, the raw threshold is
L * 4095 / 3300 in integer arithmetic; a RISING trigger qualifies exactly
when the previous sample is below the threshold and the current sample at or
above it, a FALLING trigger exactly in the mirrored case; and the concrete
scenario with raw threshold 2048 (level 1651 mV), previous 2000, current
2100 qualifies on RISING. -/
theorem c4_trigger_qualification (L prevSample curSample : Nat) (_hL : L ≤ 3300) :
    triggerADC L = L * 4095 / 3300
    ∧ (edgeQualifies TriggerSlope.rising prevSample curSample (triggerADC L) = true
        ↔ prevSample < triggerADC L ∧ triggerADC L ≤ curSample)
    ∧ (edgeQualifies TriggerSlope.falling prevSample curSample (triggerADC L) = true
        ↔ triggerADC L < prevSample ∧ curSample ≤ triggerADC L)
    ∧ triggerADC 1651 = 2048
    ∧ edgeQualifies TriggerSlope.rising 2000 2100 2048 = true := by
  refine ⟨rfl, ?_, ?_, by decide, by decide⟩ <;> simp [edgeQualifies]

/-- Witness for C4 at level 1651 mV, previous 2000, current 2100. -/
theorem c4_trigger_qualification_witness :
    triggerADC 1651 = 2048 ∧ edgeQualifies TriggerSlope.rising 2000 2100 2048 = true :=
  ⟨(c4_trigger_qualification 1651 2000 2100 (by decide)).2.2.2.1,
   (c4_trigger_qualification 1651 2000 2100 (by decide)).2.2.2.2⟩

/-- C7: every display-buffer update writes all four channels from the same
absolute source range: for each of the four channels the copied window has
the same channel-independent start index and the same length
DISPLAY_SAMPLES, every source index reduced modulo the ring capacity, and
entries outside the window are left untouched for every channel alike. -/
theorem c7_cross_channel_alignment (sb old : Fin 4 → Nat → Nat) (t : Nat)
    (ht : t < BUFFER_SIZE) :
    (∀ ch : Fin 4, ∀ i, i < DISPLAY_SAMPLES →
        copyToDisplayBuffer sb old t ch i = sb ch ((t + 448 + i) % 512))
    ∧ (∀ ch : Fin 4, ∀ i, DISPLAY_SAMPLES ≤ i →
        copyToDisplayBuffer sb old t ch i = old ch i) := by
  constructor
  · intro ch i hi
    unfold copyToDisplayBuffer
    rw [if_pos hi, startIndex_mod t ht i]
  · intro ch i hi
    unfold copyToDisplayBuffer
    rw [if_neg (by omega)]

/-- Witness for C7: trigger index 100, identity-valued ring store, display
index 64 of channel 2 receives ring entry 100. -/
theorem c7_cross_channel_alignment_witness :
    copyToDisplayBuffer (fun _ i => i) (fun _ _ => 0) 100 2 64 = 100 :=
  ((c7_cross_channel_alignment (fun _ i => i) (fun _ _ => 0) 100 (by decide)).1
    2 64 (by decide)).trans rfl

/-- C5: once triggered, snapshot extraction happens only when at least
DISPLAY_SAMPLES / 2 = 128 post-trigger samples have accumulated; it then
copies, for every channel, exactly DISPLAY_SAMPLES = 256 contiguous ring
samples (indices modulo the capacity 512) positioned so the trigger point
lands at display index DISPLAY_SAMPLES / 4 = 64 (25 percent pre-trigger,
75 percent post-trigger); afterwards the buffer is marked ready, the
triggered flag is cleared and waiting-for-re-arm is set. -/
theorem c5_snapshot_extraction (cfg : Config) (s : AcqState)
    (ht : s.triggerIndex < BUFFER_SIZE) (htr : s.triggered = true) :
    (postTriggerSamples s < DISPLAY_SAMPLES / 2 → extractPhase cfg s = (cfg, s))
    ∧ (DISPLAY_SAMPLES / 2 ≤ postTriggerSamples s →
        (∀ ch : Fin 4, ∀ i, i < DISPLAY_SAMPLES →
            (extractPhase cfg s).2.displayBuffer ch i
              = s.sampleBuffer ch ((s.triggerIndex + 448 + i) % 512))
        ∧ (∀ ch : Fin 4,
            (extractPhase cfg s).2.displayBuffer ch (DISPLAY_SAMPLES / 4)
              = s.sampleBuffer ch s.triggerIndex)
        ∧ (extractPhase cfg s).2.bufferReady = true
        ∧ (extractPhase cfg s).2.triggered = false
        ∧ (extractPhase cfg s).2.waitingForTrigger = true) := by
  constructor
  · intro hlt
    exact extractPhase_of_low cfg s hlt
  · intro hge
    rw [extractPhase_of_fires cfg s htr hge]
    have hcopy : ∀ ch : Fin 4, ∀ i, i < DISPLAY_SAMPLES →
        copyToDisplayBuffer s.sampleBuffer s.displayBuffer s.triggerIndex ch i
          = s.sampleBuffer ch ((s.triggerIndex + 448 + i) % 512) := by
      intro ch i hi
      unfold copyToDisplayBuffer
      rw [if_pos hi, startIndex_mod s.triggerIndex ht i]
    refine ⟨hcopy, ?_, rfl, rfl, rfl⟩
    intro ch
    have h64 := hcopy ch (DISPLAY_SAMPLES / 4) (by decide)
    show copyToDisplayBuffer s.sampleBuffer s.displayBuffer s.triggerIndex ch (DISPLAY_SAMPLES / 4)
      = s.sampleBuffer ch s.triggerIndex
    rw [h64, show DISPLAY_SAMPLES / 4 = 64 from rfl, window_quarter_mod s.triggerIndex ht]

/-- Witness for C5: trigger index 100, cursor 300 (200 post-trigger
samples), identity-valued ring store: the snapshot is taken, display index
64 of channel 0 holds ring entry 100, and the flags are set as stated. -/
theorem c5_snapshot_extraction_witness :
    ((extractPhase defaultConfig
        { initState with
            triggered := true
            triggerIndex := 100
            bufferIndex := 300
            sampleBuffer := fun _ i => i }).2.displayBuffer 0 64 = 100)
    ∧ ((extractPhase defaultConfig
        { initState with
            triggered := true
            triggerIndex := 100
            bufferIndex := 300
            sampleBuffer := fun _ i => i }).2.bufferReady = true) := by
  have h := c5_snapshot_extraction defaultConfig
    { initState with
        triggered := true
        triggerIndex := 100
        bufferIndex := 300
        sampleBuffer := fun _ i => i } (by decide) rfl
  have hge : DISPLAY_SAMPLES / 2 ≤ postTriggerSamples
      { initState with
          triggered := true
          triggerIndex := 100
          bufferIndex := 300
          sampleBuffer := fun _ i => (i : Nat) } := by decide
  exact ⟨((h.2 hge).2.1 0).trans rfl, (h.2 hge).2.2.1⟩

/-- C10: in every reachable state both the write cursor and the recorded
trigger cursor lie in the ring (below BUFFER_SIZE = 512); the cursor is
reset to 0 by the advance step exactly when it reaches capacity; the
previous-sample read happens only under the detection guard, which forces
the cursor above 2 so the index cursor - 1 neither underflows nor leaves the
ring; and every snapshot-copy source index is reduced modulo the capacity,
hence in range. -/
theorem c10_buffer_access_safety (cfg : Config) (raws : Nat → Fin 4 → Nat)
    (te : Nat → Bool) (n : Nat) :
    ((runTicks cfg raws te n).2.bufferIndex < BUFFER_SIZE
      ∧ (runTicks cfg raws te n).2.triggerIndex < BUFFER_SIZE)
    ∧ (∀ c : Config, ∀ s : AcqState, detectionGuard c s = true →
        2 < s.bufferIndex ∧ 2 ≤ s.bufferIndex - 1
          ∧ (s.bufferIndex < BUFFER_SIZE → s.bufferIndex - 1 < BUFFER_SIZE))
    ∧ (∀ t i : Nat, (startIndex t + i) % BUFFER_SIZE < BUFFER_SIZE)
    ∧ (∀ s : AcqState, s.bufferIndex < BUFFER_SIZE →
        ((advancePhase s).bufferIndex = 0 ↔ s.bufferIndex + 1 = BUFFER_SIZE)) := by
  refine ⟨indexInv_runTicks cfg raws te n, ?_, ?_, ?_⟩
  · intro c s h
    have h2 := detectionGuard_cursor c s h
    exact ⟨h2, by omega, by omega⟩
  · intro t i
    exact Nat.mod_lt _ (by norm_num [BUFFER_SIZE])
  · intro s hb
    rw [advancePhase_bufferIndex]
    unfold BUFFER_SIZE at *
    split <;> omega

/-- Witness for C10 at five ticks of the default configuration with zero
input and no timeouts, plus concrete instances of the guard and wrap
facts. -/
theorem c10_buffer_access_safety_witness :
    ((runTicks defaultConfig (fun _ _ => 0) (fun _ => false) 5).2.bufferIndex < BUFFER_SIZE)
    ∧ 2 < ({ initState with bufferIndex := 7 } : AcqState).bufferIndex
    ∧ ((advancePhase { initState with bufferIndex := 511 }).bufferIndex = 0
        ↔ ({ initState with bufferIndex := 511 } : AcqState).bufferIndex + 1 = BUFFER_SIZE) := by
  refine ⟨(c10_buffer_access_safety defaultConfig (fun _ _ => 0) (fun _ => false) 5).1.1, ?_, ?_⟩
  · exact ((c10_buffer_access_safety defaultConfig (fun _ _ => 0) (fun _ => false) 5).2.1
      { defaultConfig with triggerMode := TriggerMode.normal }
      { initState with bufferIndex := 7 } (by decide)).1
  · exact (c10_buffer_access_safety defaultConfig (fun _ _ => 0) (fun _ => false) 5).2.2.2
      { initState with bufferIndex := 511 } (by decide)

/-- Under the detection guard, a tick whose newly written sample qualifies
against the preceding ring entry ends with triggered set, the cursor
recorded as trigger point and waitingForTrigger cleared; the snapshot stage
cannot consume this fresh trigger because only one post-trigger sample has
accumulated. -/
lemma tick_of_edge (cfg : Config) (raws : Fin 4 → Nat) (te : Bool) (s : AcqState)
    (harm : armedGuard cfg s = true)
    (hen : enabledAt cfg (trigIdxOf cfg) = true)
    (hidx : 2 < s.bufferIndex)
    (hedge : edgeQualifies cfg.triggerSlope
        (readBuf s (trigIdxOf cfg) (s.bufferIndex - 1))
        (readBuf (writePhase cfg raws s) (trigIdxOf cfg) s.bufferIndex)
        (triggerADC cfg.triggerLevel) = true) :
    (tick cfg raws te s).2.triggered = true
    ∧ (tick cfg raws te s).2.triggerIndex = s.bufferIndex
    ∧ (tick cfg raws te s).2.waitingForTrigger = false := by
  unfold tick
  rw [edge_fires cfg raws te s harm hen hidx hedge]
  have hpost : postTriggerSamples (advancePhase
      { writePhase cfg raws s with
          triggered := true, triggerIndex := s.bufferIndex, waitingForTrigger := false })
      < DISPLAY_SAMPLES / 2 := by
    unfold postTriggerSamples advancePhase DISPLAY_SAMPLES BUFFER_SIZE
    dsimp only
    simp only [writePhase_bufferIndex]
    repeat' split
    all_goals omega
  rw [extractPhase_of_low cfg _ hpost]
  exact ⟨rfl, rfl, rfl⟩

/-- Configuration reached in SINGLE mode right after the one-shot snapshot
has dropped running to false (main.ino line 236); trigger level 1651 mV
gives raw threshold 2048. -/
def cfgSingleStopped : Config :=
  { defaultConfig with
      triggerMode := TriggerMode.single
      running := false
      triggerLevel := 1651 }

/-- Acquisition state right after a one-shot snapshot: buffer ready, waiting
for re-arm, cursor at 300, ring entry 299 holding sample 2000. -/
def sSingleStopped : AcqState :=
  { initState with
      bufferIndex := 300
      waitingForTrigger := true
      bufferReady := true
      sampleBuffer := fun _ i => if i = 299 then 2000 else 0 }

/-- Later SINGLE-mode state, still stopped, with a re-trigger at ring index
100 that has accumulated enough post-trigger samples (cursor 250) and an
identity-valued ring store. -/
def sSingleRetriggered : AcqState :=
  { initState with
      bufferIndex := 250
      triggerIndex := 100
      triggered := true
      waitingForTrigger := true
      bufferReady := true
      sampleBuffer := fun _ i => i }

/-- C1, code evaluated at the failing input: in SINGLE mode with running
false after the one-shot snapshot, the idle guard of main.ino line 158 does
not hold, so the task keeps sampling while nominally STOPPED: a loop pass
still writes the ring store at the cursor, advances the cursor and re-arms
on a qualifying edge, and a later pass with enough post-trigger samples
copies a second display window (display index 64 changes from 0 to 100). -/
theorem c1_single_stop_not_idle :
    taskIdles cfgSingleStopped = false
    ∧ cfgSingleStopped.running = false
    ∧ (loopIter cfgSingleStopped (fun _ => 2100) false sSingleStopped).2.sampleBuffer 0 300 = 2100
    ∧ (loopIter cfgSingleStopped (fun _ => 2100) false sSingleStopped).2.bufferIndex = 301
    ∧ (loopIter cfgSingleStopped (fun _ => 2100) false sSingleStopped).2.triggered = true
    ∧ sSingleRetriggered.displayBuffer 0 64 = 0
    ∧ (loopIter cfgSingleStopped (fun _ => 7) false sSingleRetriggered).2.displayBuffer 0 64 = 100 := by
  refine ⟨rfl, rfl, ?_, ?_, ?_, rfl, ?_⟩ <;> decide

/-- AUTO-mode configuration with trigger level 1651 mV (raw threshold 2048)
on the enabled default channel 1. -/
def cfgAutoRearm : Config := { defaultConfig with triggerLevel := 1651 }

/-- Post-snapshot AUTO state: waiting for re-arm, buffer ready, cursor 10,
preceding ring entry holding 2000. -/
def sAutoRearm : AcqState :=
  { initState with
      bufferIndex := 10
      waitingForTrigger := true
      bufferReady := true
      sampleBuffer := fun _ i => if i = 9 then 2000 else 0 }

/-- C2 fails on the code in AUTO mode: in the post-snapshot state (waiting
for re-arm), with the trigger channel enabled, the cursor past the startup
window and a qualifying rising edge arriving (previous 2000, new sample
2100, threshold 2048), the next tick leaves triggered false and the waiting
flag set, because line 188 skips edge detection in AUTO mode while
waitingForTrigger holds. -/
theorem c2_auto_rearm_counterexample :
    enabledAt cfgAutoRearm (trigIdxOf cfgAutoRearm) = true
    ∧ 2 < sAutoRearm.bufferIndex
    ∧ sAutoRearm.waitingForTrigger = true
    ∧ sAutoRearm.triggered = false
    ∧ edgeQualifies cfgAutoRearm.triggerSlope
        (readBuf sAutoRearm (trigIdxOf cfgAutoRearm) (sAutoRearm.bufferIndex - 1))
        (readBuf (writePhase cfgAutoRearm (fun _ => 2100) sAutoRearm)
          (trigIdxOf cfgAutoRearm) sAutoRearm.bufferIndex)
        (triggerADC cfgAutoRearm.triggerLevel) = true
    ∧ (loopIter cfgAutoRearm (fun _ => 2100) false sAutoRearm).2.triggered = false
    ∧ (loopIter cfgAutoRearm (fun _ => 2100) false sAutoRearm).2.waitingForTrigger = true := by
  decide

/-- C2 amended: after a successful snapshot the detector is immediately
eligible to re-arm only when the trigger mode is not AUTO (so NORMAL, and
formally also SINGLE): then any tick with the trigger channel enabled and
the cursor past the startup window turns a qualifying edge on the newly
written sample and the preceding ring entry into triggered = true, with the
current cursor recorded as the trigger point and waiting-for-re-arm
cleared.  In AUTO mode the set waiting flag suppresses edge detection, as
the counterexample shows. -/
theorem c2_rearm_non_auto (cfg : Config) (raws : Fin 4 → Nat) (te : Bool) (s : AcqState)
    (hm : cfg.triggerMode ≠ TriggerMode.auto)
    (hrun : cfg.running = true)
    (hen : enabledAt cfg (trigIdxOf cfg) = true)
    (hidx : 2 < s.bufferIndex)
    (hedge : edgeQualifies cfg.triggerSlope
        (readBuf s (trigIdxOf cfg) (s.bufferIndex - 1))
        (readBuf (writePhase cfg raws s) (trigIdxOf cfg) s.bufferIndex)
        (triggerADC cfg.triggerLevel) = true) :
    (loopIter cfg raws te s).2.triggered = true
    ∧ (loopIter cfg raws te s).2.triggerIndex = s.bufferIndex
    ∧ (loopIter cfg raws te s).2.waitingForTrigger = false := by
  have harm : armedGuard cfg s = true := by
    unfold armedGuard
    rw [decide_eq_true hm]
    rfl
  have hidle : ¬ taskIdles cfg = true := by
    unfold taskIdles
    rw [hrun]
    exact Bool.false_ne_true
  unfold loopIter
  rw [if_neg hidle]
  exact tick_of_edge cfg raws te s harm hen hidx hedge

/-- NORMAL-mode variant of the post-snapshot re-arm scenario. -/
def cfgNormalRearm : Config :=
  { defaultConfig with triggerMode := TriggerMode.normal, triggerLevel := 1651 }

/-- Witness for the amended C2 in NORMAL mode on the concrete post-snapshot
state. -/
theorem c2_rearm_non_auto_witness :
    (loopIter cfgNormalRearm (fun _ => 2100) false sAutoRearm).2.triggered = true
    ∧ (loopIter cfgNormalRearm (fun _ => 2100) false sAutoRearm).2.triggerIndex = 10
    ∧ (loopIter cfgNormalRearm (fun _ => 2100) false sAutoRearm).2.waitingForTrigger = false := by
  have h := c2_rearm_non_auto cfgNormalRearm (fun _ => 2100) false sAutoRearm
    (by decide) rfl rfl (by decide) (by decide)
  exact ⟨h.1, h.2.1, h.2.2⟩

/-- NORMAL-mode configuration with raw threshold 2048, used on the third
startup tick. -/
def cfgThirdTick : Config :=
  { defaultConfig with triggerMode := TriggerMode.normal, triggerLevel := 1651 }

/-- State at the start of the third tick after startup: cursor 2, ring entry
1 holding 2000, detector armed, trigger channel enabled. -/
def sThirdTick : AcqState :=
  { initState with
      bufferIndex := 2
      sampleBuffer := fun _ i => if i = 1 then 2000 else 0 }

/-- C3 fails on the code: on the third tick after startup (cursor 2, not
among the very first two ticks), with the detector armed, the trigger
channel enabled and a qualifying rising edge arriving (previous 2000, new
sample 2100, threshold 2048), the tick leaves triggered false because the
guard of line 189 demands cursor greater than 2. -/
theorem c3_third_tick_counterexample :
    sThirdTick.bufferIndex = 2
    ∧ armedGuard cfgThirdTick sThirdTick = true
    ∧ enabledAt cfgThirdTick (trigIdxOf cfgThirdTick) = true
    ∧ edgeQualifies cfgThirdTick.triggerSlope 2000 2100 (triggerADC cfgThirdTick.triggerLevel) = true
    ∧ (loopIter cfgThirdTick (fun _ => 2100) false sThirdTick).2.triggered = false := by
  decide

/-- C3 amended: edge detection is attempted exactly when the cursor exceeds
2 (given an armed detector and an enabled trigger channel), so it is skipped
on the first three ticks after startup and likewise on the three ticks after
each wrap of the cursor back to 0; under the guard the preceding sample is
read at the plain ring position cursor - 1, with no modular adjustment (the
guard makes wraparound impossible there), and a qualifying edge then sets
the trigger at the current cursor. -/
theorem c3_detection_window (cfg : Config) (raws : Fin 4 → Nat) (s : AcqState) :
    (s.bufferIndex ≤ 2 → s.triggered = false →
        (tick cfg raws false s).2.triggered = false)
    ∧ (∀ te : Bool, armedGuard cfg s = true → enabledAt cfg (trigIdxOf cfg) = true →
        2 < s.bufferIndex →
        edgeQualifies cfg.triggerSlope
            (readBuf s (trigIdxOf cfg) (s.bufferIndex - 1))
            (readBuf (writePhase cfg raws s) (trigIdxOf cfg) s.bufferIndex)
            (triggerADC cfg.triggerLevel) = true →
        (tick cfg raws te s).2.triggered = true
        ∧ (tick cfg raws te s).2.triggerIndex = s.bufferIndex) := by
  constructor
  · intro hle htr
    unfold tick triggerPhase
    rw [edgePhase_of_low cfg (writePhase cfg raws s) hle, autoPhase_of_false_timeout,
      extractPhase_of_not_triggered cfg (advancePhase (writePhase cfg raws s)) htr]
    exact htr
  · intro te harm hen hidx hedge
    have h := tick_of_edge cfg raws te s harm hen hidx hedge
    exact ⟨h.1, h.2.1⟩

/-- Witness for the amended C3: the skip half on the concrete third-tick
state, and the firing half on the same state one tick later (cursor 3). -/
theorem c3_detection_window_witness :
    ((tick cfgThirdTick (fun _ => 2100) false sThirdTick).2.triggered = false)
    ∧ ((tick cfgThirdTick (fun _ => 2100) false
        { sThirdTick with
            bufferIndex := 3
            sampleBuffer := fun _ i => if i = 2 then 2000 else 0 }).2.triggered = true) := by
  constructor
  · exact (c3_detection_window cfgThirdTick (fun _ => 2100) sThirdTick).1 (by decide) rfl
  · exact ((c3_detection_window cfgThirdTick (fun _ => 2100)
      { sThirdTick with
          bufferIndex := 3
          sampleBuffer := fun _ i => if i = 2 then 2000 else 0 }).2
      false (by decide) rfl (by decide) (by decide)).1

/-- C6: in AUTO mode, any tick at which the timeout comparison of main.ino
line 213 holds while no trigger is pending forces a synthetic trigger at the
current cursor, for every configuration - in particular with the
trigger-source channel disabled; with mode NORMAL or SINGLE the trigger flag
can appear only through a qualifying edge on the newly written sample and
the preceding ring entry, never synthetically. -/
theorem c6_auto_timeout_synthetic_trigger (cfg : Config) (raws : Fin 4 → Nat) (s : AcqState) :
    (cfg.triggerMode = TriggerMode.auto → s.triggered = false →
        (triggerPhase cfg true (writePhase cfg raws s)).triggered = true
        ∧ (triggerPhase cfg true (writePhase cfg raws s)).triggerIndex = s.bufferIndex)
    ∧ (cfg.triggerMode ≠ TriggerMode.auto → ∀ te : Bool,
        (triggerPhase cfg te (writePhase cfg raws s)).triggered = true →
        s.triggered = true
        ∨ edgeQualifies cfg.triggerSlope
            (readBuf s (trigIdxOf cfg) (s.bufferIndex - 1))
            (readBuf (writePhase cfg raws s) (trigIdxOf cfg) s.bufferIndex)
            (triggerADC cfg.triggerLevel) = true) := by
  constructor
  · intro hm htr
    unfold triggerPhase
    rcases edgePhase_cases cfg (writePhase cfg raws s) with h | h <;> rw [h]
    · have hc : (decide (cfg.triggerMode = TriggerMode.auto)
          && !(writePhase cfg raws s).triggered && true) = true := by
        rw [decide_eq_true hm, writePhase_triggered, htr]
        rfl
      unfold autoPhase
      rw [if_pos hc]
      exact ⟨rfl, rfl⟩
    · rw [autoPhase_of_triggered cfg true _ rfl]
      exact ⟨rfl, rfl⟩
  · intro hm te htrig
    unfold triggerPhase autoPhase at htrig
    rw [decide_eq_false hm] at htrig
    simp only [Bool.false_and, Bool.false_eq_true, if_false] at htrig
    unfold edgePhase at htrig
    split at htrig
    · rename_i hg
      split at htrig
      · rename_i he
        right
        have h2 : 2 < s.bufferIndex := detectionGuard_cursor cfg _ hg
        rw [writePhase_bufferIndex] at he
        rwa [readBuf_writePhase_of_ne cfg raws s _ _ (by omega)] at he
      · left
        exact htrig
    · left
      exact htrig

/-- AUTO-mode configuration with every channel disabled. -/
def cfgAutoDisabled : Config := { defaultConfig with channelEnabled := fun _ => false }

/-- Witness for C6: with all channels disabled, at startup, a tick with the
timeout expired still triggers synthetically at cursor 0. -/
theorem c6_auto_timeout_synthetic_trigger_witness :
    (triggerPhase cfgAutoDisabled true (writePhase cfgAutoDisabled (fun _ => 0) initState)).triggered = true
    ∧ (triggerPhase cfgAutoDisabled true (writePhase cfgAutoDisabled (fun _ => 0) initState)).triggerIndex = 0 := by
  have h := (c6_auto_timeout_synthetic_trigger cfgAutoDisabled (fun _ => 0) initState).1 rfl rfl
  exact ⟨h.1, h.2⟩

/-- The coupling filter applied tick by tick to a list of raw readings of
one channel, threading the DC estimate (the per-channel part of main.ino
lines 174-180 across consecutive ticks). -/
def runCoupling (c : CouplingType) (est : ℚ) (rawSeq : List Nat) : ℚ × List Nat :=
  match rawSeq with
  | [] => (est, [])
  | r :: rest =>
      let p := couplingStep c est r
      let q := runCoupling c p.1 rest
      (q.1, p.2 :: q.2)

/-- DC estimate after n AC-coupled ticks with the constant raw input r. -/
def dcEstimate (est0 : ℚ) (r : Nat) : Nat → ℚ
  | 0 => est0
  | n + 1 => (couplingStep CouplingType.ac (dcEstimate est0 r n) r).1

/-- Clamped, pre-truncation AC output of main.ino line 179 for DC estimate
est and raw sample r. -/
def acClamped (est : ℚ) (r : Nat) : ℚ := clampQ 0 4095 ((r : ℚ) - est + 2048)

lemma runCoupling_dc (est : ℚ) (rawSeq : List Nat) :
    runCoupling CouplingType.dc est rawSeq = (est, rawSeq) := by
  induction rawSeq with
  | nil => rfl
  | cons r rest ih => simp [runCoupling, couplingStep, ih]

lemma dcEstimate_sub (est0 : ℚ) (r : Nat) (n : Nat) :
    dcEstimate est0 r n - (r : ℚ) = (999 / 1000) ^ n * (est0 - (r : ℚ)) := by
  induction n with
  | zero => simp [dcEstimate]
  | succ n ih =>
      have hstep : dcEstimate est0 r (n + 1)
          = dcEstimate est0 r n * (1 - 1 / 1000) + (r : ℚ) * (1 / 1000) := rfl
      rw [hstep]
      linear_combination ((999 : ℚ) / 1000) * ih

lemma abs_dcEstimate_sub (est0 : ℚ) (r : Nat) (n : Nat) :
    |dcEstimate est0 r n - (r : ℚ)| = (999 / 1000) ^ n * |est0 - (r : ℚ)| := by
  rw [dcEstimate_sub, abs_mul, abs_pow,
    abs_of_pos (by norm_num : (0 : ℚ) < 999 / 1000)]

lemma clampQ_dist (d : ℚ) : |clampQ 0 4095 (2048 + d) - 2048| ≤ |d| := by
  unfold clampQ
  rcases le_total (2048 + d) 4095 with h1 | h1
  · rw [min_eq_right h1]
    rcases le_total 0 (2048 + d) with h2 | h2
    · rw [max_eq_right h2, add_sub_cancel_left]
    · rw [max_eq_left h2,
        show (0 : ℚ) - 2048 = -2048 by norm_num, abs_neg,
        abs_of_nonpos (by linarith : d ≤ 0),
        abs_of_pos (by norm_num : (0 : ℚ) < 2048)]
      linarith
  · rw [min_eq_left h1, max_eq_right (by norm_num : (0 : ℚ) ≤ 4095),
      show (4095 : ℚ) - 2048 = 2047 by norm_num,
      abs_of_pos (by norm_num : (0 : ℚ) < 2047),
      abs_of_nonneg (by linarith : (0 : ℚ) ≤ d)]
    linarith

lemma acClamped_dist (est0 : ℚ) (r : Nat) (n : Nat) :
    |acClamped (dcEstimate est0 r n) r - 2048|
      ≤ (999 / 1000) ^ n * |est0 - (r : ℚ)| := by
  have h1 : acClamped (dcEstimate est0 r n) r
      = clampQ 0 4095 (2048 + ((r : ℚ) - dcEstimate est0 r n)) := by
    unfold acClamped
    congr 1
    ring
  calc |acClamped (dcEstimate est0 r n) r - 2048|
      ≤ |(r : ℚ) - dcEstimate est0 r n| := by rw [h1]; exact clampQ_dist _
    _ = |dcEstimate est0 r n - (r : ℚ)| := abs_sub_comm _ _
    _ = (999 / 1000) ^ n * |est0 - (r : ℚ)| := abs_dcEstimate_sub est0 r n

lemma acClamped_conv (est0 : ℚ) (r : Nat) :
    ∀ ε : ℚ, 0 < ε → ∃ N : Nat, ∀ n, N ≤ n →
      |acClamped (dcEstimate est0 r n) r - 2048| < ε := by
  intro ε hε
  have hC0 : 0 ≤ |est0 - (r : ℚ)| := abs_nonneg _
  obtain ⟨N, hN⟩ := exists_pow_lt_of_lt_one
    (show (0 : ℚ) < ε / (|est0 - (r : ℚ)| + 1) by positivity)
    (show (999 / 1000 : ℚ) < 1 by norm_num)
  refine ⟨N, fun n hn => ?_⟩
  have hmono : (999 / 1000 : ℚ) ^ n ≤ (999 / 1000 : ℚ) ^ N :=
    pow_le_pow_of_le_one (by norm_num) (by norm_num) hn
  have hNp : (0 : ℚ) ≤ (999 / 1000 : ℚ) ^ N := by positivity
  have h3 : (999 / 1000 : ℚ) ^ N * (|est0 - (r : ℚ)| + 1)
      < (ε / (|est0 - (r : ℚ)| + 1)) * (|est0 - (r : ℚ)| + 1) :=
    mul_lt_mul_of_pos_right hN (by linarith)
  rw [div_mul_cancel₀ ε (by linarith : |est0 - (r : ℚ)| + 1 ≠ 0)] at h3
  have h4 : (999 / 1000 : ℚ) ^ n * |est0 - (r : ℚ)| < ε := by
    nlinarith
  exact lt_of_le_of_lt (acClamped_dist est0 r n) h4

/-- C8: with DC coupling every sequence of raw samples passes through the
coupling filter unchanged (and the DC estimate is untouched); with AC
coupling the DC estimate is updated each tick by
estimate * (1 - 1/1000) + raw * (1/1000), the stored sample is the clamped
output truncated to uint16_t, and on a constant raw input the clamped
output approaches the reference midpoint 2048: its distance is bounded by
the geometric term (999/1000) to the n times the initial offset, and drops
below every positive bound from some tick on. -/
theorem c8_coupling_filter (est0 : ℚ) (r : Nat) (rawSeq : List Nat) :
    runCoupling CouplingType.dc est0 rawSeq = (est0, rawSeq)
    ∧ (∀ est : ℚ, (couplingStep CouplingType.ac est r).1
        = est * (1 - 1 / 1000) + (r : ℚ) * (1 / 1000))
    ∧ (∀ n, (couplingStep CouplingType.ac (dcEstimate est0 r n) r).2
        = (acClamped (dcEstimate est0 r (n + 1)) r).floor.toNat)
    ∧ (∀ n, |acClamped (dcEstimate est0 r n) r - 2048|
        ≤ (999 / 1000) ^ n * |est0 - (r : ℚ)|)
    ∧ (∀ ε : ℚ, 0 < ε → ∃ N : Nat, ∀ n, N ≤ n →
        |acClamped (dcEstimate est0 r n) r - 2048| < ε) :=
  ⟨runCoupling_dc est0 rawSeq,
   fun _ => rfl,
   fun _ => rfl,
   acClamped_dist est0 r,
   acClamped_conv est0 r⟩

/-- Witness for C8: the DC identity on a concrete sample list and, for AC
coupling from estimate 2048 with constant input 3000, a concrete tick index
past which the clamped output stays within 1 of the midpoint. -/
theorem c8_coupling_filter_witness :
    runCoupling CouplingType.dc 2048 [1, 2000, 4095] = (2048, [1, 2000, 4095])
    ∧ ∃ N : Nat, ∀ n, N ≤ n → |acClamped (dcEstimate 2048 3000 n) 3000 - 2048| < 1 :=
  ⟨(c8_coupling_filter 2048 3000 [1, 2000, 4095]).1,
   (c8_coupling_filter 2048 3000 [1, 2000, 4095]).2.2.2.2 1 one_pos⟩

/-- Array vScaleValues, main.ino line 88, as the int values the parsed
scale is compared against (the uint16_t entries promote to int in the
comparison of line 650). -/
def vScaleValues : List Int := [5, 10, 20, 50, 100, 200, 500, 1000, 2000]

/-- Array hScaleValues, main.ino line 92. -/
def hScaleValues : List ℚ :=
  [1 / 2, 1, 2, 5, 10, 20, 50, 100, 200, 500, 1000, 2000, 5000]

/-- Observable Serial.println outputs of the configuration handlers; each
constructor stands for one println call of main.ino. -/
inductive Msg where
  | vScaleSet (ch scale : Nat)
  | vScaleInvalid
  | hScaleSet
  | hScaleInvalid
  | triggerChannelSet (ch : Nat)
  | triggerLevelSet (level : Nat)
  | couplingSet (ch : Nat) (c : CouplingType)
  | couplingInvalid
  | positionSet (ch : Nat)
  | positionInvalid
  deriving DecidableEq, Repr

/-- The rejection messages among the handler outputs (the four println calls
of main.ino lines 660, 683, 704 and 721 that report an invalid value). -/
def isRejection : Msg → Bool
  | Msg.vScaleInvalid => true
  | Msg.hScaleInvalid => true
  | Msg.couplingInvalid => true
  | Msg.positionInvalid => true
  | _ => false

/-- Function parseVScale, main.ino lines 640-664, modelled from the point
where the two numeric arguments have been extracted (the toInt results of
lines 644-645; the String slicing itself carries no validation).  chNum is
the raw 1-based channel number, so ch = chNum - 1 as at line 644. -/
def parseVScale (cfg : Config) (chNum scale : Int) : Config × List Msg :=
  let ch := chNum - 1
  if h : 0 ≤ ch ∧ ch < 4 then
    if vScaleValues.contains scale then
      ({ cfg with vScale := Function.update cfg.vScale ⟨ch.toNat, by omega⟩ scale.toNat },
       [Msg.vScaleSet (ch.toNat + 1) scale.toNat])
    else (cfg, [Msg.vScaleInvalid])
  else (cfg, [])

/-- Function parseHScale, main.ino lines 666-686, from the parsed float
argument (line 669); a value is accepted when it is within 0.01 of an
allowed scale (line 673). -/
def parseHScale (cfg : Config) (scale : ℚ) : Config × List Msg :=
  if hScaleValues.any (fun v => decide (|v - scale| < 1 / 100)) then
    ({ cfg with hScale := scale }, [Msg.hScaleSet])
  else (cfg, [Msg.hScaleInvalid])

/-- TRIGGER branch of processSerialCommands, main.ino lines 576-585, from
the parsed channel number (line 579): out-of-range values are ignored with
no message. -/
def triggerChannelCmd (cfg : Config) (ch : Int) : Config × List Msg :=
  if 1 ≤ ch ∧ ch ≤ 4 then
    ({ cfg with triggerChannel := ch.toNat }, [Msg.triggerChannelSet ch.toNat])
  else (cfg, [])

/-- TLEVEL branch of processSerialCommands, main.ino lines 587-596, from the
parsed level (line 590): out-of-range values are ignored with no message. -/
def triggerLevelCmd (cfg : Config) (level : Int) : Config × List Msg :=
  if 0 ≤ level ∧ level ≤ 3300 then
    ({ cfg with triggerLevel := level.toNat }, [Msg.triggerLevelSet level.toNat])
  else (cfg, [])

/-- Argument keyword of the COUPLING command: AC, DC, or anything else. -/
inductive CouplingArg where
  | ac
  | dc
  | other
  deriving DecidableEq, Repr

/-- Function parseCoupling, main.ino lines 688-708, from the parsed channel
number and keyword; switching to AC also resets that channel's DC filter
estimate to 2048 (line 698), so the handler acts on the dcFilter array as
well. -/
def parseCoupling (cfg : Config) (dc : Fin 4 → ℚ) (chNum : Int) (arg : CouplingArg) :
    Config × (Fin 4 → ℚ) × List Msg :=
  let ch := chNum - 1
  if h : 0 ≤ ch ∧ ch < 4 then
    match arg with
    | CouplingArg.ac =>
        ({ cfg with coupling := Function.update cfg.coupling ⟨ch.toNat, by omega⟩ CouplingType.ac },
         Function.update dc ⟨ch.toNat, by omega⟩ 2048,
         [Msg.couplingSet (ch.toNat + 1) CouplingType.ac])
    | CouplingArg.dc =>
        ({ cfg with coupling := Function.update cfg.coupling ⟨ch.toNat, by omega⟩ CouplingType.dc },
         dc,
         [Msg.couplingSet (ch.toNat + 1) CouplingType.dc])
    | CouplingArg.other => (cfg, dc, [Msg.couplingInvalid])
  else (cfg, dc, [])

/-- Function parsePosition, main.ino lines 710-724, from the parsed channel
number and position; note that the single combined check of line 717 prints
the rejection message even when only the channel number is bad. -/
def parsePosition (cfg : Config) (chNum : Int) (pos : ℚ) : Config × List Msg :=
  let ch := chNum - 1
  if h : 0 ≤ ch ∧ ch < 4 ∧ -3 ≤ pos ∧ pos ≤ 3 then
    ({ cfg with position := Function.update cfg.position ⟨ch.toNat, by omega⟩ pos },
     [Msg.positionSet (ch.toNat + 1)])
  else (cfg, [Msg.positionInvalid])

/-- C9 fails on the code for the trigger level: TLEVEL 5000 is outside
0..3300 and the configuration is left unchanged, but the handler of main.ino
lines 587-596 has no rejection branch, so no user-visible rejection is
reported - the output is empty. -/
theorem c9_silent_tlevel_counterexample :
    (3300 : Int) < 5000
    ∧ (triggerLevelCmd defaultConfig 5000).1 = defaultConfig
    ∧ (triggerLevelCmd defaultConfig 5000).2 = []
    ∧ (triggerLevelCmd defaultConfig 5000).2.any isRejection = false := by
  refine ⟨by decide, ?_, ?_, ?_⟩
  · unfold triggerLevelCmd
    rw [if_neg (by omega)]
  · unfold triggerLevelCmd
    rw [if_neg (by omega)]
  · unfold triggerLevelCmd
    rw [if_neg (by omega)]
    rfl

/-- C9 amended: every configuration command carrying an out-of-range value
leaves the whole configuration unchanged, but a user-visible rejection is
reported only for invalid voltage-scale values on a valid channel, invalid
time-scale values and invalid positions; out-of-range trigger levels,
out-of-range trigger channel numbers and out-of-range target channel
numbers in VSCALE or COUPLING commands are ignored silently with no
output at all. -/
theorem c9_validation (cfg : Config) (dc : Fin 4 → ℚ) :
    (∀ chNum scale : Int, ¬ vScaleValues.contains scale = true →
        (parseVScale cfg chNum scale).1 = cfg
        ∧ (1 ≤ chNum → chNum ≤ 4 →
            (parseVScale cfg chNum scale).2.any isRejection = true))
    ∧ (∀ chNum scale : Int, chNum < 1 ∨ 4 < chNum →
        (parseVScale cfg chNum scale).1 = cfg ∧ (parseVScale cfg chNum scale).2 = [])
    ∧ (∀ scale : ℚ, ¬ hScaleValues.any (fun v => decide (|v - scale| < 1 / 100)) = true →
        (parseHScale cfg scale).1 = cfg
        ∧ (parseHScale cfg scale).2.any isRejection = true)
    ∧ (∀ level : Int, level < 0 ∨ 3300 < level →
        (triggerLevelCmd cfg level).1 = cfg ∧ (triggerLevelCmd cfg level).2 = [])
    ∧ (∀ ch : Int, ch < 1 ∨ 4 < ch →
        (triggerChannelCmd cfg ch).1 = cfg ∧ (triggerChannelCmd cfg ch).2 = [])
    ∧ (∀ chNum : Int, ∀ pos : ℚ, pos < -3 ∨ 3 < pos →
        (parsePosition cfg chNum pos).1 = cfg
        ∧ (parsePosition cfg chNum pos).2.any isRejection = true)
    ∧ (∀ chNum : Int, ∀ arg : CouplingArg, chNum < 1 ∨ 4 < chNum →
        (parseCoupling cfg dc chNum arg).1 = cfg
        ∧ (parseCoupling cfg dc chNum arg).2.2 = [])
    ∧ (∀ chNum : Int, 1 ≤ chNum → chNum ≤ 4 →
        (parseCoupling cfg dc chNum CouplingArg.other).1 = cfg
        ∧ (parseCoupling cfg dc chNum CouplingArg.other).2.1 = dc
        ∧ (parseCoupling cfg dc chNum CouplingArg.other).2.2.any isRejection = true) := by
  refine ⟨?_, ?_, ?_, ?_, ?_, ?_, ?_, ?_⟩
  · intro chNum scale hs
    unfold parseVScale
    dsimp only
    split
    · exact ⟨rfl, fun _ _ => rfl⟩
    · rename_i h
      refine ⟨rfl, fun h1 h4 => absurd ?_ h⟩
      omega
  · intro chNum scale hch
    unfold parseVScale
    dsimp only
    rw [dif_neg (by omega)]
    exact ⟨rfl, rfl⟩
  · intro scale hs
    unfold parseHScale
    rw [if_neg hs]
    exact ⟨rfl, rfl⟩
  · intro level hl
    unfold triggerLevelCmd
    rw [if_neg (by omega)]
    exact ⟨rfl, rfl⟩
  · intro ch hch
    unfold triggerChannelCmd
    rw [if_neg (by omega)]
    exact ⟨rfl, rfl⟩
  · intro chNum pos hp
    unfold parsePosition
    dsimp only
    rw [dif_neg ?hcond]
    case hcond =>
      rintro ⟨-, -, h3, h4⟩
      rcases hp with h | h <;> linarith
    exact ⟨rfl, rfl⟩
  · intro chNum arg hch
    unfold parseCoupling
    dsimp only
    rw [dif_neg (by omega)]
    exact ⟨rfl, rfl⟩
  · intro chNum h1 h4
    unfold parseCoupling
    dsimp only
    rw [dif_pos (by omega)]
    exact ⟨rfl, rfl, rfl⟩

/-- Witness for the amended C9: invalid voltage scale 33 on channel 1 is
rejected with a message and no state change, trigger level -7 is silently
ignored, position 5 is rejected with a message, and an invalid coupling
keyword on valid channel 3 is rejected with a message and no change to the
configuration or the DC filter estimates. -/
theorem c9_validation_witness :
    ((parseVScale defaultConfig 1 33).1 = defaultConfig
      ∧ (parseVScale defaultConfig 1 33).2.any isRejection = true)
    ∧ ((triggerLevelCmd defaultConfig (-7)).1 = defaultConfig
      ∧ (triggerLevelCmd defaultConfig (-7)).2 = [])
    ∧ ((parsePosition defaultConfig 2 5).1 = defaultConfig
      ∧ (parsePosition defaultConfig 2 5).2.any isRejection = true)
    ∧ ((parseCoupling defaultConfig (fun _ => 2048) 3 CouplingArg.other).1 = defaultConfig
      ∧ (parseCoupling defaultConfig (fun _ => 2048) 3 CouplingArg.other).2.1 = (fun _ => 2048)
      ∧ (parseCoupling defaultConfig (fun _ => 2048) 3 CouplingArg.other).2.2.any isRejection
          = true) := by
  have h := c9_validation defaultConfig (fun _ => 2048)
  exact ⟨⟨(h.1 1 33 (by decide)).1, (h.1 1 33 (by decide)).2 (by decide) (by decide)⟩,
    h.2.2.2.1 (-7) (Or.inl (by decide)),
    h.2.2.2.2.2.1 2 5 (Or.inr (by norm_num)),
    h.2.2.2.2.2.2.2 3 (by decide) (by decide)⟩

end Scope
